import Mathlib

/-
Verification of the Joplin MCP adapter (joplin_mcp.py).

The adapter is a stateless translator from tool invocations to single HTTP
requests against a local Joplin server.  We embed it shallowly: JSON values
become an inductive type, the HTTP layer becomes a function from requests to
responses (the "server"), and each Python tool function becomes a Lean
function returning both its result (an `Except` value, errors modelling
raised exceptions) and the list of HTTP requests it issued.  The trace of
issued requests lets us state "no network request is attempted" and
"exactly one request per invocation" directly.
-/

/-- A JSON value, as produced by `response.json()` and sent in request
bodies.  The adapter only ever builds strings and integers itself;
arrays and objects appear in server responses. -/
inductive JVal where
  | str (s : String)
  | num (n : Int)
  | arr (xs : List JVal)
  | obj (kvs : List (String × JVal))

/-- Process-wide configuration: `JOPLIN_BASE_URL` (defaulted) and
`JOPLIN_TOKEN` (`os.getenv` returns `None` when unset, hence `Option`). -/
structure Config where
  baseUrl : String
  token : Option String
  deriving DecidableEq, Repr

/-- One outgoing HTTP request as handed to
`client.request(method, url, params=params, json=json)`. -/
structure Request where
  method : String
  url : String
  params : List (String × JVal)
  json : Option (List (String × JVal))

/-- An HTTP response: a status code and the decoded JSON body. -/
structure Response where
  status : Nat
  body : JVal

/-- The note server, abstracted as a deterministic map from requests to
responses. -/
def Server : Type := Request → Response

/-- Errors the adapter can raise: the `ValueError` for a missing token,
the `httpx.HTTPStatusError` from `raise_for_status` (carrying status and
body), and the `AttributeError` that `result.get` would raise on a
non-dict result. -/
inductive JError where
  | configError
  | httpStatusError (status : Nat) (body : JVal)
  | typeError

/-- Python dict assignment `d[k] = v`: overwrite in place when the key is
present, append otherwise. -/
def setParam (ps : List (String × JVal)) (k : String) (v : JVal) :
    List (String × JVal) :=
  if ps.any (fun kv => kv.1 = k) then
    ps.map (fun kv => if kv.1 = k then (k, v) else kv)
  else
    ps ++ [(k, v)]

/-- `httpx.Response.is_success`: status in the 2xx range; only then does
`raise_for_status` return normally. -/
def isSuccess (status : Nat) : Bool :=
  200 ≤ status && status ≤ 299

/-- `_make_request(method, endpoint, params, json)`.  Raises a
configuration error when `not JOPLIN_TOKEN` (unset or empty string,
following Python falsiness); otherwise injects `token` into the query
parameters, issues exactly one request, and either returns the decoded
body or raises an HTTP status error.  The second component is the list
of requests actually issued. -/
def make_request (cfg : Config) (server : Server) (method endpoint : String)
    (params : Option (List (String × JVal)) := none)
    (json : Option (List (String × JVal)) := none) :
    Except JError JVal × List Request :=
  match cfg.token with
  | none => (.error .configError, [])
  | some t =>
    if t = "" then (.error .configError, [])
    else
      let url := cfg.baseUrl ++ endpoint
      let ps := setParam (params.getD []) "token" (.str t)
      let req : Request := ⟨method, url, ps, json⟩
      let resp := server req
      if isSuccess resp.status then (.ok resp.body, [req])
      else (.error (.httpStatusError resp.status resp.body), [req])

/-- Python `result.get(k, default)` on the decoded response: a dict lookup
with a default; any non-dict result would raise (`typeError`). -/
def dictGet (j : JVal) (k : String) (d : JVal) : Except JError JVal :=
  match j with
  | .obj kvs => .ok ((kvs.lookup k).getD d)
  | _ => .error .typeError

/-- The metadata field-selection string used by `list_notes` and
`search_notes` (no `body`). -/
def metadataFields : String :=
  "id,title,updated_time,created_time,parent_id,is_todo,todo_completed"

/-- The field-selection string used by `get_note` (includes `body`). -/
def getNoteFields : String :=
  "id,title,body,updated_time,created_time,parent_id,is_todo,todo_completed"

/-- The field-selection string used by `list_folders`. -/
def folderFields : String :=
  "id,title,updated_time,created_time,parent_id"

/-- `list_notes(limit=10, page=1)`: `GET /notes` with `limit`, `page` and
the metadata field list; returns `result.get("items", [])`. -/
def list_notes (cfg : Config) (server : Server)
    (limit : Int := 10) (page : Int := 1) :
    Except JError JVal × List Request :=
  let params := [("limit", JVal.num limit), ("page", JVal.num page),
                 ("fields", JVal.str metadataFields)]
  let r := make_request cfg server "GET" "/notes" (some params) none
  (r.1.bind (fun res => dictGet res "items" (.arr [])), r.2)

/-- `get_note(note_id)`: `GET /notes/{note_id}` with the full field list;
returns the decoded response unmodified. -/
def get_note (cfg : Config) (server : Server) (note_id : String) :
    Except JError JVal × List Request :=
  let params := [("fields", JVal.str getNoteFields)]
  make_request cfg server "GET" ("/notes/" ++ note_id) (some params) none

/-- Python truthiness of the optional `parent_id` argument:
`if parent_id:` is false for `None` and for the empty string. -/
def strTruthy : Option String → Bool
  | none => false
  | some s => !(s = "")

/-- `create_note(title, body, parent_id=None)`: `POST /notes` with a JSON
body holding `title` and `body`, plus `parent_id` only when truthy. -/
def create_note (cfg : Config) (server : Server) (title body : String)
    (parent_id : Option String := none) :
    Except JError JVal × List Request :=
  let data := [("title", JVal.str title), ("body", JVal.str body)]
  let data := if strTruthy parent_id then
      data ++ [("parent_id", JVal.str (parent_id.getD ""))]
    else data
  make_request cfg server "POST" "/notes" none (some data)

/-- `update_note(note_id, title=None, body=None, is_todo=None,
todo_completed=None)`: `PUT /notes/{note_id}` with a JSON body built by
conditional insertion.  `now` is the value of `int(time.time() * 1000)`
read at call time. -/
def update_note (cfg : Config) (server : Server) (now : Int)
    (note_id : String) (title : Option String := none)
    (body : Option String := none) (is_todo : Option Bool := none)
    (todo_completed : Option Bool := none) :
    Except JError JVal × List Request :=
  let data : List (String × JVal) := []
  let data := match title with
    | some t => data ++ [("title", JVal.str t)]
    | none => data
  let data := match body with
    | some b => data ++ [("body", JVal.str b)]
    | none => data
  let data := match is_todo with
    | some it => data ++ [("is_todo", JVal.num (if it then 1 else 0))]
    | none => data
  let data := match todo_completed with
    | some tc => data ++ [("todo_completed", JVal.num (if tc then now else 0))]
    | none => data
  make_request cfg server "PUT" ("/notes/" ++ note_id) none (some data)

/-- `delete_note(note_id, permanent=False)`: `DELETE /notes/{note_id}`;
adds `permanent="1"` only when `permanent` is true. -/
def delete_note (cfg : Config) (server : Server) (note_id : String)
    (permanent : Bool := false) :
    Except JError JVal × List Request :=
  let params : List (String × JVal) := []
  let params := if permanent then params ++ [("permanent", JVal.str "1")]
    else params
  make_request cfg server "DELETE" ("/notes/" ++ note_id) (some params) none

/-- `search_notes(query, limit=10, page=1)`: `GET /search` with `query`,
`limit`, `page` and the metadata field list; returns
`result.get("items", [])`. -/
def search_notes (cfg : Config) (server : Server) (query : String)
    (limit : Int := 10) (page : Int := 1) :
    Except JError JVal × List Request :=
  let params := [("query", JVal.str query), ("limit", JVal.num limit),
                 ("page", JVal.num page), ("fields", JVal.str metadataFields)]
  let r := make_request cfg server "GET" "/search" (some params) none
  (r.1.bind (fun res => dictGet res "items" (.arr [])), r.2)

/-- `list_folders(limit=10, page=1)`: `GET /folders` with `limit`, `page`
and the folder field list; returns `result.get("items", [])`. -/
def list_folders (cfg : Config) (server : Server)
    (limit : Int := 10) (page : Int := 1) :
    Except JError JVal × List Request :=
  let params := [("limit", JVal.num limit), ("page", JVal.num page),
                 ("fields", JVal.str folderFields)]
  let r := make_request cfg server "GET" "/folders" (some params) none
  (r.1.bind (fun res => dictGet res "items" (.arr [])), r.2)

/-- The JSON body required of `update_note` by the specification, stated
in the words of the spec: exactly the provided fields and no others —
unset optional fields omitted entirely; `is_todo` true/false as wire
values 1/0; `todo_completed` true as the call-time clock in epoch
milliseconds, false as wire value 0. -/
def updateBodySpec (now : Int) (title body : Option String)
    (is_todo todo_completed : Option Bool) : List (String × JVal) :=
  (match title with
    | some v => [("title", JVal.str v)]
    | none => []) ++
  (match body with
    | some v => [("body", JVal.str v)]
    | none => []) ++
  (match is_todo with
    | some v => [("is_todo", JVal.num (if v then 1 else 0))]
    | none => []) ++
  (match todo_completed with
    | some v => [("todo_completed", JVal.num (if v then now else 0))]
    | none => [])

/-- A concrete configuration with a set token, for witness instances
(mirrors the value used by the test suite). -/
def cfg0 : Config := ⟨"http://localhost:41184", some "test-token"⟩

/-- A concrete configuration with no token set. -/
def cfgNoTok : Config := ⟨"http://localhost:41184", none⟩

/-- A concrete configuration whose token is the empty string. -/
def cfgEmptyTok : Config := ⟨"http://localhost:41184", some ""⟩

/-- A concrete response envelope carrying one item (mirrors the mocked
response of the test suite). -/
def demoEnvelope : List (String × JVal) :=
  [("items", JVal.arr [JVal.obj [("id", JVal.str "1"),
    ("title", JVal.str "Test Note")]]), ("has_more", JVal.str "false")]

/-- A concrete server that answers every request with status 200 and
`demoEnvelope`. -/
def demoServer : Server := fun _ => ⟨200, JVal.obj demoEnvelope⟩

/-- A concrete response envelope with no `items` key. -/
def bareEnvelope : List (String × JVal) := [("has_more", JVal.str "false")]

/-- A concrete server that answers every request with status 200 and
`bareEnvelope` (no `items` key). -/
def bareServer : Server := fun _ => ⟨200, JVal.obj bareEnvelope⟩

/-- A concrete created-note body with a server-assigned id (mirrors the
mocked response of the test suite). -/
def createdBody : JVal :=
  JVal.obj [("id", JVal.str "2"), ("title", JVal.str "New Note")]

/-- A concrete server that answers every request with status 200 and
`createdBody`. -/
def createdServer : Server := fun _ => ⟨200, createdBody⟩

/-- A concrete error body. -/
def errBody : JVal := JVal.obj [("error", JVal.str "not found")]

/-- A concrete server that answers every request with status 404 and
`errBody`. -/
def errServer : Server := fun _ => ⟨404, errBody⟩

/-- C3: with no access token configured, every tool call fails with the
configuration error and issues no HTTP request (empty request trace). -/
theorem C3_no_token_no_request (cfg : Config) (srv : Server)
    (htoken : cfg.token = none) (limit page now : Int)
    (note_id query title body : String) (parent_id ot ob : Option String)
    (oit otc : Option Bool) (permanent : Bool) :
    list_notes cfg srv limit page = (.error .configError, []) ∧
    get_note cfg srv note_id = (.error .configError, []) ∧
    create_note cfg srv title body parent_id = (.error .configError, []) ∧
    update_note cfg srv now note_id ot ob oit otc
      = (.error .configError, []) ∧
    delete_note cfg srv note_id permanent = (.error .configError, []) ∧
    search_notes cfg srv query limit page = (.error .configError, []) ∧
    list_folders cfg srv limit page = (.error .configError, []) := by
  simp [list_notes, get_note, create_note, update_note, delete_note,
        search_notes, list_folders, make_request, htoken, Except.bind]

/-- Witness for C3 at a concrete configuration and server. -/
theorem C3_no_token_no_request_witness :
    cfgNoTok.token = none ∧
    list_notes cfgNoTok demoServer 10 1 = (.error .configError, []) :=
  ⟨rfl, (C3_no_token_no_request cfgNoTok demoServer rfl 10 1 0 "" "" "" ""
    none none none none none false).1⟩

/-- C10: with the access token configured as the empty string, every tool
call fails with the same configuration error as when the token is absent,
and issues no HTTP request — the dispatcher tests falsiness, not
presence. -/
theorem C10_empty_token_no_request (cfg : Config) (srv : Server)
    (htoken : cfg.token = some "") (limit page now : Int)
    (note_id query title body : String) (parent_id ot ob : Option String)
    (oit otc : Option Bool) (permanent : Bool) :
    list_notes cfg srv limit page = (.error .configError, []) ∧
    get_note cfg srv note_id = (.error .configError, []) ∧
    create_note cfg srv title body parent_id = (.error .configError, []) ∧
    update_note cfg srv now note_id ot ob oit otc
      = (.error .configError, []) ∧
    delete_note cfg srv note_id permanent = (.error .configError, []) ∧
    search_notes cfg srv query limit page = (.error .configError, []) ∧
    list_folders cfg srv limit page = (.error .configError, []) := by
  simp [list_notes, get_note, create_note, update_note, delete_note,
        search_notes, list_folders, make_request, htoken, Except.bind]

/-- Witness for C10 at a concrete configuration and server. -/
theorem C10_empty_token_no_request_witness :
    cfgEmptyTok.token = some "" ∧
    list_notes cfgEmptyTok demoServer 10 1 = (.error .configError, []) :=
  ⟨rfl, (C10_empty_token_no_request cfgEmptyTok demoServer rfl 10 1 0 "" ""
    "" "" none none none none none false).1⟩

/-- C9: repeating `get_note` or `list_notes` with identical arguments
against an unchanged server (same response to the same request) and the
same configuration yields identical results. -/
theorem C9_idempotent (cfg : Config) (srv1 srv2 : Server)
    (hsame : ∀ r, srv1 r = srv2 r) (note_id : String) (limit page : Int) :
    get_note cfg srv1 note_id = get_note cfg srv2 note_id ∧
    list_notes cfg srv1 limit page = list_notes cfg srv2 limit page := by
  have h : srv1 = srv2 := funext hsame
  subst h
  exact ⟨rfl, rfl⟩

/-- Witness for C9 at a concrete configuration and server. -/
theorem C9_idempotent_witness :
    (∀ r, demoServer r = demoServer r) ∧
    get_note cfg0 demoServer "1" = get_note cfg0 demoServer "1" :=
  ⟨fun _ => rfl,
   (C9_idempotent cfg0 demoServer demoServer (fun _ => rfl) "1" 10 1).1⟩

/-- With a truthy token, `make_request` issues exactly one request, whose
shape is determined by its arguments (regardless of the response). -/
theorem make_request_trace (cfg : Config) (srv : Server) (m e : String)
    (ps : Option (List (String × JVal)))
    (j : Option (List (String × JVal))) (t : String)
    (ht : cfg.token = some t) (hne : t ≠ "") :
    (make_request cfg srv m e ps j).2 =
      [⟨m, cfg.baseUrl ++ e, setParam (ps.getD []) "token" (.str t), j⟩] := by
  simp only [make_request, ht, hne, if_false]
  split <;> rfl

/-- C1: every tool invocation that reaches the dispatcher issues a request
whose query parameters contain a key `token` equal to the configured
access token, in addition to all caller-supplied query parameters. -/
theorem C1_token_injected (cfg : Config) (srv : Server) (t : String)
    (ht : cfg.token = some t) (hne : t ≠ "") (limit page now : Int)
    (note_id query title body : String) (parent_id ot ob : Option String)
    (oit otc : Option Bool) (permanent : Bool) :
    (∀ r ∈ (list_notes cfg srv limit page).2,
      r.params.lookup "token" = some (JVal.str t) ∧
      ("limit", JVal.num limit) ∈ r.params ∧
      ("page", JVal.num page) ∈ r.params ∧
      ("fields", JVal.str metadataFields) ∈ r.params) ∧
    (∀ r ∈ (get_note cfg srv note_id).2,
      r.params.lookup "token" = some (JVal.str t) ∧
      ("fields", JVal.str getNoteFields) ∈ r.params) ∧
    (∀ r ∈ (create_note cfg srv title body parent_id).2,
      r.params.lookup "token" = some (JVal.str t)) ∧
    (∀ r ∈ (update_note cfg srv now note_id ot ob oit otc).2,
      r.params.lookup "token" = some (JVal.str t)) ∧
    (∀ r ∈ (delete_note cfg srv note_id permanent).2,
      r.params.lookup "token" = some (JVal.str t) ∧
      (permanent = true → ("permanent", JVal.str "1") ∈ r.params)) ∧
    (∀ r ∈ (search_notes cfg srv query limit page).2,
      r.params.lookup "token" = some (JVal.str t) ∧
      ("query", JVal.str query) ∈ r.params ∧
      ("limit", JVal.num limit) ∈ r.params ∧
      ("page", JVal.num page) ∈ r.params ∧
      ("fields", JVal.str metadataFields) ∈ r.params) ∧
    (∀ r ∈ (list_folders cfg srv limit page).2,
      r.params.lookup "token" = some (JVal.str t) ∧
      ("limit", JVal.num limit) ∈ r.params ∧
      ("page", JVal.num page) ∈ r.params ∧
      ("fields", JVal.str folderFields) ∈ r.params) := by
  refine ⟨?_, ?_, ?_, ?_, ?_, ?_, ?_⟩ <;> intro r hr
  · simp only [list_notes] at hr
    rw [make_request_trace cfg srv _ _ _ _ t ht hne] at hr
    simp only [List.mem_singleton] at hr
    subst hr
    simp [setParam, List.lookup]
  · simp only [get_note] at hr
    rw [make_request_trace cfg srv _ _ _ _ t ht hne] at hr
    simp only [List.mem_singleton] at hr
    subst hr
    simp [setParam, List.lookup]
  · simp only [create_note] at hr
    rw [make_request_trace cfg srv _ _ _ _ t ht hne] at hr
    simp only [List.mem_singleton] at hr
    subst hr
    simp [setParam, List.lookup]
  · simp only [update_note] at hr
    rw [make_request_trace cfg srv _ _ _ _ t ht hne] at hr
    simp only [List.mem_singleton] at hr
    subst hr
    simp [setParam, List.lookup]
  · simp only [delete_note] at hr
    rw [make_request_trace cfg srv _ _ _ _ t ht hne] at hr
    simp only [List.mem_singleton] at hr
    subst hr
    cases permanent <;> simp [setParam, List.lookup]
  · simp only [search_notes] at hr
    rw [make_request_trace cfg srv _ _ _ _ t ht hne] at hr
    simp only [List.mem_singleton] at hr
    subst hr
    simp [setParam, List.lookup]
  · simp only [list_folders] at hr
    rw [make_request_trace cfg srv _ _ _ _ t ht hne] at hr
    simp only [List.mem_singleton] at hr
    subst hr
    simp [setParam, List.lookup]

/-- Witness for C1 at a concrete configuration and server. -/
theorem C1_token_injected_witness :
    cfg0.token = some "test-token" ∧ "test-token" ≠ "" ∧
    (∀ r ∈ (list_notes cfg0 demoServer 5 1).2,
      r.params.lookup "token" = some (JVal.str "test-token") ∧
      ("limit", JVal.num 5) ∈ r.params ∧
      ("page", JVal.num 1) ∈ r.params ∧
      ("fields", JVal.str metadataFields) ∈ r.params) :=
  ⟨rfl, by decide,
   (C1_token_injected cfg0 demoServer "test-token" rfl (by decide) 5 1 0
     "" "" "" "" none none none none none false).1⟩

/-- C2: `update_note` sends a JSON body containing exactly the provided
fields and no others — unset optional fields are omitted entirely;
`is_todo` true/false maps to 1/0; `todo_completed` true maps to the
call-time clock in epoch milliseconds and false to 0 (stated via the
spec-side body `updateBodySpec`). -/
theorem C2_update_note_body (cfg : Config) (srv : Server) (t : String)
    (ht : cfg.token = some t) (hne : t ≠ "") (now : Int) (note_id : String)
    (title body : Option String) (is_todo todo_completed : Option Bool) :
    ∀ r ∈ (update_note cfg srv now note_id title body is_todo
        todo_completed).2,
      r.method = "PUT" ∧
      r.url = cfg.baseUrl ++ ("/notes/" ++ note_id) ∧
      r.json = some (updateBodySpec now title body is_todo todo_completed)
      := by
  intro r hr
  simp only [update_note] at hr
  rw [make_request_trace cfg srv _ _ _ _ t ht hne] at hr
  simp only [List.mem_singleton] at hr
  subst hr
  rcases title with _ | a <;> rcases body with _ | b <;>
    rcases is_todo with _ | c <;> rcases todo_completed with _ | d <;>
    simp [updateBodySpec]

/-- Witness for C2: the frozen-clock example of the spec — updating only
the title and completing the todo sends exactly those two fields. -/
theorem C2_update_note_body_witness :
    cfg0.token = some "test-token" ∧ "test-token" ≠ "" ∧
    updateBodySpec 123456789 (some "Updated Title") none none (some true)
      = [("title", JVal.str "Updated Title"),
         ("todo_completed", JVal.num 123456789)] ∧
    (∀ r ∈ (update_note cfg0 demoServer 123456789 "1"
        (some "Updated Title") none none (some true)).2,
      r.method = "PUT" ∧
      r.url = cfg0.baseUrl ++ ("/notes/" ++ "1") ∧
      r.json = some (updateBodySpec 123456789 (some "Updated Title") none
        none (some true))) :=
  ⟨rfl, by decide, rfl,
   C2_update_note_body cfg0 demoServer "test-token" rfl (by decide)
     123456789 "1" (some "Updated Title") none none (some true)⟩

/-- With a truthy token and a server uniformly answering with a successful
status, `make_request` returns the decoded response body. -/
theorem make_request_ok (cfg : Config) (srv : Server) (m e : String)
    (ps : Option (List (String × JVal)))
    (j : Option (List (String × JVal))) (t : String) (st : Nat)
    (rb : JVal) (ht : cfg.token = some t) (hne : t ≠ "")
    (hsrv : ∀ r, srv r = ⟨st, rb⟩) (hst : isSuccess st = true) :
    (make_request cfg srv m e ps j).1 = .ok rb := by
  simp [make_request, ht, hne, hsrv, hst]

/-- With a truthy token and a server uniformly answering with a
non-success status, `make_request` fails with the HTTP status error
carrying that status and body. -/
theorem make_request_err (cfg : Config) (srv : Server) (m e : String)
    (ps : Option (List (String × JVal)))
    (j : Option (List (String × JVal))) (t : String) (st : Nat)
    (rb : JVal) (ht : cfg.token = some t) (hne : t ≠ "")
    (hsrv : ∀ r, srv r = ⟨st, rb⟩) (hst : isSuccess st = false) :
    (make_request cfg srv m e ps j).1 = .error (.httpStatusError st rb)
    := by
  simp [make_request, ht, hne, hsrv, hst]

/-- C4: `list_notes`, `search_notes` and `list_folders` return the `items`
sequence of the response envelope when present, and an empty sequence
(rather than failing) when the envelope lacks an `items` key. -/
theorem C4_items_extraction (cfg : Config) (srv : Server) (t : String)
    (st : Nat) (kvs : List (String × JVal))
    (ht : cfg.token = some t) (hne : t ≠ "")
    (hsrv : ∀ r, srv r = ⟨st, JVal.obj kvs⟩) (hst : isSuccess st = true)
    (limit page : Int) (query : String) :
    (kvs.lookup "items" = none →
      (list_notes cfg srv limit page).1 = .ok (.arr []) ∧
      (search_notes cfg srv query limit page).1 = .ok (.arr []) ∧
      (list_folders cfg srv limit page).1 = .ok (.arr [])) ∧
    (∀ v, kvs.lookup "items" = some v →
      (list_notes cfg srv limit page).1 = .ok v ∧
      (search_notes cfg srv query limit page).1 = .ok v ∧
      (list_folders cfg srv limit page).1 = .ok v) := by
  refine ⟨fun h => ?_, fun v h => ?_⟩ <;>
    simp [list_notes, search_notes, list_folders, make_request, ht, hne,
      hsrv, hst, dictGet, Except.bind, h]

/-- Witness for C4: a server with an `items` envelope yields exactly that
sequence; a server without `items` yields the empty sequence. -/
theorem C4_items_extraction_witness :
    cfg0.token = some "test-token" ∧ "test-token" ≠ "" ∧
    (∀ r, demoServer r = ⟨200, JVal.obj demoEnvelope⟩) ∧
    (∀ r, bareServer r = ⟨200, JVal.obj bareEnvelope⟩) ∧
    isSuccess 200 = true ∧
    demoEnvelope.lookup "items" = some (JVal.arr [JVal.obj
      [("id", JVal.str "1"), ("title", JVal.str "Test Note")]]) ∧
    bareEnvelope.lookup "items" = none ∧
    (list_notes cfg0 demoServer 5 1).1 = .ok (JVal.arr [JVal.obj
      [("id", JVal.str "1"), ("title", JVal.str "Test Note")]]) ∧
    (list_notes cfg0 bareServer 5 1).1 = .ok (.arr []) :=
  ⟨rfl, by decide, fun _ => rfl, fun _ => rfl, rfl, rfl, rfl,
   ((C4_items_extraction cfg0 demoServer "test-token" 200 demoEnvelope rfl
      (by decide) (fun _ => rfl) rfl 5 1 "").2 _ rfl).1,
   ((C4_items_extraction cfg0 bareServer "test-token" 200 bareEnvelope rfl
      (by decide) (fun _ => rfl) rfl 5 1 "").1 rfl).1⟩

/-- C5: the outgoing field-selection parameter is fixed per tool:
`list_notes` and `search_notes` send the metadata list (no `body`),
`get_note` sends the same list with `body` spliced in, and
`list_folders` sends the folder list. -/
theorem C5_field_selection (cfg : Config) (srv : Server) (t : String)
    (ht : cfg.token = some t) (hne : t ≠ "") (limit page : Int)
    (note_id query : String) :
    (∀ r ∈ (list_notes cfg srv limit page).2, r.params.lookup "fields" =
      some (JVal.str
      "id,title,updated_time,created_time,parent_id,is_todo,todo_completed"))
    ∧
    (∀ r ∈ (search_notes cfg srv query limit page).2,
      r.params.lookup "fields" = some (JVal.str
      "id,title,updated_time,created_time,parent_id,is_todo,todo_completed"))
    ∧
    (∀ r ∈ (get_note cfg srv note_id).2, r.params.lookup "fields" =
      some (JVal.str getNoteFields)) ∧
    metadataFields = "id,title," ++
      "updated_time,created_time,parent_id,is_todo,todo_completed" ∧
    getNoteFields = "id,title," ++ "body," ++
      "updated_time,created_time,parent_id,is_todo,todo_completed" ∧
    (∀ r ∈ (list_folders cfg srv limit page).2, r.params.lookup "fields" =
      some (JVal.str "id,title,updated_time,created_time,parent_id")) := by
  refine ⟨?_, ?_, ?_, by rfl, by rfl, ?_⟩ <;> intro r hr
  · simp only [list_notes] at hr
    rw [make_request_trace cfg srv _ _ _ _ t ht hne] at hr
    simp only [List.mem_singleton] at hr
    subst hr
    simp [setParam, List.lookup, metadataFields]
  · simp only [search_notes] at hr
    rw [make_request_trace cfg srv _ _ _ _ t ht hne] at hr
    simp only [List.mem_singleton] at hr
    subst hr
    simp [setParam, List.lookup, metadataFields]
  · simp only [get_note] at hr
    rw [make_request_trace cfg srv _ _ _ _ t ht hne] at hr
    simp only [List.mem_singleton] at hr
    subst hr
    simp [setParam, List.lookup]
  · simp only [list_folders] at hr
    rw [make_request_trace cfg srv _ _ _ _ t ht hne] at hr
    simp only [List.mem_singleton] at hr
    subst hr
    simp [setParam, List.lookup, folderFields]

/-- Witness for C5 at a concrete configuration and server. -/
theorem C5_field_selection_witness :
    cfg0.token = some "test-token" ∧ "test-token" ≠ "" ∧
    (∀ r ∈ (list_notes cfg0 demoServer 5 1).2, r.params.lookup "fields" =
      some (JVal.str
      "id,title,updated_time,created_time,parent_id,is_todo,todo_completed"))
    :=
  ⟨rfl, by decide,
   (C5_field_selection cfg0 demoServer "test-token" rfl (by decide) 5 1
     "1" "Found").1⟩

/-- C6: `create_note` sends a JSON body with `title` and `body`, includes
`parent_id` exactly when a non-empty one was provided (the key is omitted
entirely when absent or empty), and returns the servers created-note
representation (hence its newly assigned `id`) unmodified. -/
theorem C6_create_note (cfg : Config) (srv : Server) (t : String)
    (st : Nat) (rb : JVal) (ht : cfg.token = some t) (hne : t ≠ "")
    (hsrv : ∀ r, srv r = ⟨st, rb⟩) (hst : isSuccess st = true)
    (title body : String) (parent_id : Option String) :
    (∀ r ∈ (create_note cfg srv title body parent_id).2,
      r.method = "POST" ∧ r.url = cfg.baseUrl ++ "/notes" ∧
      ((parent_id = none ∨ parent_id = some "") →
        r.json = some [("title", JVal.str title),
          ("body", JVal.str body)]) ∧
      (∀ p, parent_id = some p → p ≠ "" →
        r.json = some [("title", JVal.str title), ("body", JVal.str body),
          ("parent_id", JVal.str p)])) ∧
    (create_note cfg srv title body parent_id).1 = .ok rb := by
  constructor
  · intro r hr
    simp only [create_note] at hr
    rw [make_request_trace cfg srv _ _ _ _ t ht hne] at hr
    simp only [List.mem_singleton] at hr
    subst hr
    rcases parent_id with _ | p
    · simp [strTruthy]
    · by_cases hp : p = "" <;> simp [strTruthy, hp]
  · simp only [create_note]
    exact make_request_ok cfg srv _ _ _ _ t st rb ht hne hsrv hst

/-- Witness for C6: the spec example — creating a note with no parent
omits `parent_id` from the body and returns the server-assigned note. -/
theorem C6_create_note_witness :
    cfg0.token = some "test-token" ∧ "test-token" ≠ "" ∧
    (∀ r, createdServer r = ⟨200, createdBody⟩) ∧ isSuccess 200 = true ∧
    (create_note cfg0 createdServer "New Note" "Body content" none).1 =
      .ok createdBody :=
  ⟨rfl, by decide, fun _ => rfl, rfl,
   (C6_create_note cfg0 createdServer "test-token" 200 createdBody rfl
     (by decide) (fun _ => rfl) rfl "New Note" "Body content" none).2⟩

/-- C7: `delete_note` issues `DELETE /notes/{note_id}`; the `permanent`
query parameter is `"1"` when `permanent` is true and absent when it is
false. -/
theorem C7_delete_note (cfg : Config) (srv : Server) (t : String)
    (ht : cfg.token = some t) (hne : t ≠ "") (note_id : String)
    (permanent : Bool) :
    ∀ r ∈ (delete_note cfg srv note_id permanent).2,
      r.method = "DELETE" ∧
      r.url = cfg.baseUrl ++ ("/notes/" ++ note_id) ∧
      (permanent = true →
        r.params.lookup "permanent" = some (JVal.str "1")) ∧
      (permanent = false → r.params.lookup "permanent" = none) := by
  intro r hr
  simp only [delete_note] at hr
  rw [make_request_trace cfg srv _ _ _ _ t ht hne] at hr
  simp only [List.mem_singleton] at hr
  subst hr
  cases permanent <;> simp [setParam, List.lookup]

/-- Witness for C7: permanent deletion sets `permanent="1"`. -/
theorem C7_delete_note_witness :
    cfg0.token = some "test-token" ∧ "test-token" ≠ "" ∧
    (∀ r ∈ (delete_note cfg0 demoServer "1" true).2,
      r.method = "DELETE" ∧
      r.url = cfg0.baseUrl ++ ("/notes/" ++ "1") ∧
      (true = true → r.params.lookup "permanent" = some (JVal.str "1")) ∧
      (true = false → r.params.lookup "permanent" = none)) :=
  ⟨rfl, by decide,
   C7_delete_note cfg0 demoServer "test-token" rfl (by decide) "1" true⟩

/-- C8: under a non-success HTTP status, every tool fails with the HTTP
status error carrying the status code and body, after issuing exactly one
request (no retry, no suppression, no fallback value). -/
theorem C8_http_error_propagation (cfg : Config) (srv : Server)
    (t : String) (st : Nat) (rb : JVal) (ht : cfg.token = some t)
    (hne : t ≠ "") (hsrv : ∀ r, srv r = ⟨st, rb⟩)
    (hst : isSuccess st = false) (limit page now : Int)
    (note_id query title body : String) (parent_id ot ob : Option String)
    (oit otc : Option Bool) (permanent : Bool) :
    (list_notes cfg srv limit page).1
      = .error (.httpStatusError st rb) ∧
    (list_notes cfg srv limit page).2.length = 1 ∧
    (get_note cfg srv note_id).1 = .error (.httpStatusError st rb) ∧
    (get_note cfg srv note_id).2.length = 1 ∧
    (create_note cfg srv title body parent_id).1
      = .error (.httpStatusError st rb) ∧
    (create_note cfg srv title body parent_id).2.length = 1 ∧
    (update_note cfg srv now note_id ot ob oit otc).1
      = .error (.httpStatusError st rb) ∧
    (update_note cfg srv now note_id ot ob oit otc).2.length = 1 ∧
    (delete_note cfg srv note_id permanent).1
      = .error (.httpStatusError st rb) ∧
    (delete_note cfg srv note_id permanent).2.length = 1 ∧
    (search_notes cfg srv query limit page).1
      = .error (.httpStatusError st rb) ∧
    (search_notes cfg srv query limit page).2.length = 1 ∧
    (list_folders cfg srv limit page).1
      = .error (.httpStatusError st rb) ∧
    (list_folders cfg srv limit page).2.length = 1 := by
  simp [list_notes, get_note, create_note, update_note, delete_note,
    search_notes, list_folders, make_request, ht, hne, hsrv, hst,
    Except.bind]

/-- Witness for C8: a 404 response makes `list_notes` fail with the HTTP
status error carrying 404 and the response body. -/
theorem C8_http_error_propagation_witness :
    cfg0.token = some "test-token" ∧ "test-token" ≠ "" ∧
    (∀ r, errServer r = ⟨404, errBody⟩) ∧ isSuccess 404 = false ∧
    (list_notes cfg0 errServer 10 1).1
      = .error (.httpStatusError 404 errBody) :=
  ⟨rfl, by decide, fun _ => rfl, rfl,
   (C8_http_error_propagation cfg0 errServer "test-token" 404 errBody rfl
     (by decide) (fun _ => rfl) rfl 10 1 0 "" "" "" "" none none none
     none none false).1⟩
